import Mathlib

/-!
Shallow embedding of the core of the earned-media diagnostic engine:
the Pass-1 classifier (vertical_analysis.py) and the Pass-2 signals
engine (orchestra_signals_engine.py).

Modelling conventions:
* numeric cell values are rationals (ℚ); a CSV cell that may be missing
  or non-numeric is an `Option ℚ` and `coerceFloat` mirrors the
  `coerce_float` helper (NaN / unparseable ↦ 0.0);
* dates are integers (day numbers); an unparseable date cell is `none`;
* Python string operations used by the schema resolver are re-implemented
  over `List Char` by structural recursion so that every definition is
  executable and kernel-decidable (the repository only ever feeds ASCII
  column names through them);
* each definition's doc comment names the Python function and lines it
  embeds.
-/

namespace Orchestra

/-! ## Character/string helpers (ASCII models of the Python `str` methods) -/

/-- ASCII lower-casing of one character (model of Python `str.lower` on the
ASCII column/state names the pipeline uses). -/
def chLower (c : Char) : Char :=
  if 65 ≤ c.toNat ∧ c.toNat ≤ 90 then Char.ofNat (c.toNat + 32) else c

/-- Model of Python `str.lower` (ASCII). -/
def lowerStr (s : String) : String := ⟨s.data.map chLower⟩

/-- Model of Python `str.endswith`. -/
def endsWithStr (s suffix : String) : Bool := suffix.data.isSuffixOf s.data

/-- Model of Python `str.startswith`. -/
def startsWithStr (s pre : String) : Bool := pre.data.isPrefixOf s.data

/-- Fuel-bounded worker for `replaceStr`; the fuel starts at the length of the
subject string, which bounds the number of characters consumed. -/
def replaceGo (pat rep : List Char) : Nat → List Char → List Char
  | 0, s => s
  | _ + 1, [] => []
  | fuel + 1, c :: rest =>
    if pat ≠ [] && pat.isPrefixOf (c :: rest) then
      rep ++ replaceGo pat rep fuel ((c :: rest).drop pat.length)
    else c :: replaceGo pat rep fuel rest

/-- Model of Python `str.replace` (replace every non-overlapping occurrence,
scanning left to right). -/
def replaceStr (s pat rep : String) : String :=
  ⟨replaceGo pat.data rep.data s.data.length s.data⟩

/-- ASCII whitespace test (model of the characters Python `str.strip`
removes on the ASCII state labels used here). -/
def isWSChar (c : Char) : Bool :=
  c.toNat = 32 || c.toNat = 9 || c.toNat = 10 || c.toNat = 13 ||
    c.toNat = 11 || c.toNat = 12

/-- Model of Python `str.strip`. -/
def trimStr (s : String) : String :=
  ⟨((s.data.dropWhile isWSChar).reverse.dropWhile isWSChar).reverse⟩

/-! ## Row-level numeric utilities (vertical_analysis.py, lines 399-424) -/

/-- Embeds `coerce_float` (lines 399-405): a missing / NaN / non-numeric cell
coerces to 0.0, a numeric cell to its value. -/
def coerceFloat : Option ℚ → ℚ
  | none => 0
  | some x => x

/-- Embeds `is_present` (lines 408-409): present iff prominence strictly
positive. -/
def isPresent (p : ℚ) : Bool := decide (p > 0)

/-- Embeds `normalize_sentiment_weak_collapse` (lines 412-419). Note the
source collapses `0.01 <= s <= 1.0` to `1.0` and `-1.0 <= s <= -0.01` to
`-1.0`; values with `0 < |s| < 0.01` fall through unchanged. -/
def normalizeSentimentWeakCollapse (raw : ℚ) : ℚ :=
  if raw = 0 then 0
  else if 1/100 ≤ raw ∧ raw ≤ 1 then 1
  else if -1 ≤ raw ∧ raw ≤ -(1/100) then -1
  else raw

/-- Embeds `gated_sentiment` (lines 422-424): sentiment counts only when
prominence is strictly positive. -/
def gatedSentiment (prominence sentiment : ℚ) : ℚ :=
  if prominence > 0 then sentiment else 0

/-! ## State cascades (vertical_analysis.py, lines 463-526) -/

/-- Embeds `assign_topic_state` (lines 463-478). -/
def assignTopicState (topicPresent : Bool) (topicProm topicSent : ℚ) : String :=
  if !topicPresent then "Absent"
  else if topicProm ≥ 5/2 ∧ topicSent < -2 then "High Risk"
  else if topicProm ≥ 5/2 ∧ 0 > topicSent ∧ topicSent ≥ -2 then "Risky"
  else if topicProm ≥ 5/2 ∧ topicSent ≥ 0 then "Healthy"
  else if topicProm < 5/2 ∧ topicSent < 0 then "Ambient Risk"
  else if topicProm < 5/2 ∧ topicSent ≥ 0 then "Niche"
  else "Undetermined"

/-- Maximum of the tracked narrative prominences on a row: embeds
`max([...], default=0.0)` from `assign_entity_state` (line 512) — note the
Python default applies only to an empty list, it is not a floor. -/
def maxNarrProm : List ℚ → ℚ
  | [] => 0
  | x :: xs => xs.foldl max x

/-- Embeds `assign_entity_state` (lines 498-526): Off-Stage/Absent when the
topic is present but the entity is not, then Under Fire / Leader /
Supporting Player on the entity's own prominence and sentiment. -/
def assignEntityState (entityProm entitySent topicProm : ℚ)
    (trackedNarrProms : List ℚ) : String :=
  if topicProm > 0 ∧ entityProm = 0 then
    (if maxNarrProm trackedNarrProms > 0 then "Off-Stage" else "Absent")
  else if entityProm > 0 ∧ entitySent < 0 then "Under Fire"
  else if entityProm ≥ 3 ∧ entitySent > 0 then "Leader"
  else if 0 < entityProm ∧ entityProm < 3 ∧ entitySent > 0 then
    "Supporting Player"
  else "Undetermined"

/-- Embeds `assign_under_fire_modifier` (lines 591-622), including the
gap-bridge branch appended after the seven canonical rules. -/
def assignUnderFireModifier (prom sent outlet : ℚ) : String :=
  if prom ≥ 4 ∧ sent ≤ -3 ∧ outlet = 5 then "Narrative Shaper"
  else if prom ≥ 3 ∧ sent ≤ -2 ∧ outlet = 4 then "Takedown"
  else if prom ≥ 3 ∧ sent ≤ -2 ∧ outlet > 2 then "Body Blow"
  else if prom ≥ 2 ∧ sent ≤ -2 ∧ outlet ≤ 3 then "Stinger"
  else if prom ≥ 2 ∧ -2 < sent ∧ sent < 0 then "Light Jab"
  else if prom < 2 ∧ sent ≤ -2 then "Collateral Damage"
  else if prom < 2 ∧ -2 < sent ∧ sent < 0 then "Peripheral Hit"
  else if prom ≥ 2 ∧ prom < 3 ∧ sent ≤ -2 ∧ outlet ≥ 4 then "Stinger"
  else ""

/-! ## Pass-1 per-row state columns (vertical_analysis.py, lines 819-832 and
923-938, 967-980) -/

/-- Embeds `_topic_state_row` (lines 819-830): coerce the topic cells, map
zero prominence to Absent, otherwise run the topic cascade on the gated
sentiment. The function reads only the prominence and sentiment cells. -/
def topicStateRow (promCell sentCell : Option ℚ) : String :=
  let prom := coerceFloat promCell
  let sent := coerceFloat sentCell
  if prom = 0 then "Absent"
  else assignTopicState (isPresent prom) prom (gatedSentiment prom sent)

/-- Embeds line 832: the Topic_State column is assigned from
`_topic_state_row` for every row, unconditionally — any pre-existing value
in the column is discarded (the same shape is used for every narrative
state column at line 809). -/
def topicStateOutput (_preexisting : Option String) (promCell sentCell : Option ℚ) :
    String :=
  topicStateRow promCell sentCell

/-- Embeds the hybrid entity-state fill (lines 928-931): a cell that is
null, the empty string, or the literal string "nan" is (re)computed; any
other pre-existing value is kept. -/
def entityStateFill (pre : Option String) (computed : String) : String :=
  match pre with
  | none => computed
  | some s => if s = "" || s = "nan" then computed else s

/-- Embeds `normalize_state` (lines 968-975): strip the value and rewrite
the spellings "offstage" / "off stage" (case-insensitively) to
"Off-Stage". -/
def normalizeState (s : String) : String :=
  let t := trimStr s
  if lowerStr t = "offstage" || lowerStr t = "off stage" then "Off-Stage" else t

/-- Final value of an entity state cell after Pass 1: the hybrid fill
(lines 928-934) followed by the post-processing normalization pass
(lines 977-980). -/
def entityStateOutput (pre : Option String) (computed : String) : String :=
  normalizeState (entityStateFill pre computed)

/-! ## Schema resolver (vertical_analysis.py, lines 51-99 and 673-759) -/

/-- Embeds the `typo_variants` list of `find_best_column_match`
(lines 71-82), in source order. -/
def typoVariants (target : String) : List String :=
  [target,
   replaceStr target "Entity_" "Enity_",
   replaceStr target "Enity_" "Entity_",
   replaceStr target "Narrative_" "Narrtaive_",
   replaceStr target "Narrtaive_" "Narrative_",
   replaceStr target "_State" "__State",
   target ++ " ",
   replaceStr target "_Quality_Score" "_Quality",
   replaceStr target "_Quality" "_Quality_Score",
   replaceStr target "_Qulaity_Score" "_Quality_Score"]

/-- Embeds `find_best_column_match` (lines 51-99): exact match, then the
typo-variant list, then — only for targets that do not end in `_State` or
`_Modifier` — a fuzzy close match. The difflib ≥0.8 close-match search is
an external library routine and is abstracted as the `fuzzy` argument; the
theorems below quantify over it. -/
def findBestColumnMatch (fuzzy : String → List String → Option String)
    (target : String) (available : List String) : Option String :=
  if available.contains target then some target
  else
    match (typoVariants target).find? (fun v => available.contains v) with
    | some v => some v
    | none =>
      if endsWithStr target "_State" || endsWithStr target "_Modifier" then none
      else fuzzy target available

/-- Prominence/sentiment column pair of one resolved entity or narrative
mapping (the required fields of `EntityColumnMapping` /
`NarrativeColumnMapping`, lines 12-27). -/
structure ColumnBinding where
  prominence : String
  sentiment : String
deriving DecidableEq

/-- Embeds the topic-prominence binding of `process` (lines 685-701):
exact `Topic_Prominence`, then the Orchestra overall-level column, then the
first `Entity_*_Prominence` column as fallback. -/
def topicProminenceBinding (cols : List String) : Option String :=
  if cols.contains "Topic_Prominence" then some "Topic_Prominence"
  else if cols.contains "O_Overall - Overall-Level Prominence" then
    some "O_Overall - Overall-Level Prominence"
  else
    (cols.filter (fun c => startsWithStr c "Entity_" && endsWithStr c "_Prominence")).head?

/-- Embeds the topic-sentiment binding of `process` (lines 703-723):
exact `Topic_Sentiment`, then any column starting with `Topic_Sentiment`,
then the Orchestra overall-level column, then the first
`Entity_*_Sentiment` column as fallback. -/
def topicSentimentBinding (cols : List String) : Option String :=
  if cols.contains "Topic_Sentiment" then some "Topic_Sentiment"
  else
    match (cols.filter (fun c => startsWithStr c "Topic_Sentiment")).head? with
    | some c => some c
    | none =>
      if cols.contains "O_Overall - Overall-Level Sentiment" then
        some "O_Overall - Overall-Level Sentiment"
      else
        (cols.filter (fun c => startsWithStr c "Entity_" && endsWithStr c "_Sentiment")).head?

/-- Embeds the outlet-tier binding of `process` (lines 740-749): the column
is accepted under `Outlet score` or `Orchestra_Pub_Tier`. -/
def outletScoreBinding (cols : List String) : Option String :=
  if cols.contains "Outlet score" then some "Outlet score"
  else if cols.contains "Orchestra_Pub_Tier" then some "Orchestra_Pub_Tier"
  else none

/-- Missing-column entries contributed by one resolved entity or narrative
mapping (lines 726-737): its bound prominence and sentiment columns must
exist in the data frame. -/
def bindingMissingCols (cols : List String) (m : ColumnBinding) : List String :=
  (if cols.contains m.prominence then [] else [m.prominence])
    ++ (if cols.contains m.sentiment then [] else [m.sentiment])

/-- Embeds the `missing_cols` accumulation of `process` (lines 680-759), in
source order: topic prominence, topic sentiment, narrative mappings, entity
mappings, outlet tier, and the two other required metadata columns
`Pub_Tier` and `Body - Length - Words` (lines 752-755). -/
def missingRequiredCols (cols : List String)
    (narrativeMappings entityMappings : List ColumnBinding) : List String :=
  (if (topicProminenceBinding cols).isSome then []
   else ["Topic_Prominence (or O_Overall - Overall-Level Prominence, or Entity_*_Prominence)"])
    ++ (if (topicSentimentBinding cols).isSome then []
        else ["Topic_Sentiment (or O_Overall - Overall-Level Sentiment, or Entity_*_Sentiment)"])
    ++ narrativeMappings.flatMap (bindingMissingCols cols)
    ++ entityMappings.flatMap (bindingMissingCols cols)
    ++ (if (outletScoreBinding cols).isSome then []
        else ["Outlet score (or Orchestra_Pub_Tier)"])
    ++ (if cols.contains "Pub_Tier" then [] else ["Pub_Tier"])
    ++ (if cols.contains "Body - Length - Words" then []
        else ["Body - Length - Words"])

/-- Embeds the abort decision of `process` (lines 757-759): a ValueError
(the schema error) is raised exactly when the missing-column list is
non-empty; its message lists the missing columns and the sorted list of
available columns. -/
def pass1Aborts (cols : List String)
    (narrativeMappings entityMappings : List ColumnBinding) : Bool :=
  !(missingRequiredCols cols narrativeMappings entityMappings).isEmpty

/-- Transcribes the abort condition exactly as the specification words it
(a second definition for comparison with the source-derived
`pass1Aborts`): abort when topic prominence, topic sentiment, or outlet
tier cannot be bound, or when no entity/narrative has both prominence and
sentiment bound. -/
def claimedSchemaError (cols : List String)
    (narrativeMappings entityMappings : List ColumnBinding) : Bool :=
  (topicProminenceBinding cols).isNone
    || (topicSentimentBinding cols).isNone
    || (outletScoreBinding cols).isNone
    || ((narrativeMappings ++ entityMappings).filter
          (fun m => cols.contains m.prominence && cols.contains m.sentiment)).isEmpty

/-! ## Window engine (orchestra_signals_engine.py, lines 99-109 and 627-641) -/

/-- Embeds the `as_of` resolution of `_window_splits` (line 103): the
explicit argument when given, otherwise the maximum parseable date of the
input (unparseable cells are `none` and never the maximum). -/
def resolveAsOf (dates : List (Option ℤ)) : Option ℤ → Option ℤ
  | some a => some a
  | none => (dates.filterMap id).max?

/-- Embeds lines 104-106 of `_window_splits`: current start is the anchor
minus `WINDOW_DAYS - 1` = 29 days, the prior window is the 30 days before
that, all bounds inclusive. -/
def splitBounds (maxDate : ℤ) : (ℤ × ℤ) × (ℤ × ℤ) :=
  let currentStart := maxDate - (30 - 1)
  ((currentStart, maxDate), (currentStart - 30, currentStart - 1))

/-- Embeds `_window_splits` (lines 99-109) reduced to the window bounds it
computes: `none` when no anchor date can be resolved. -/
def windowSplits (dates : List (Option ℤ)) (asOf : Option ℤ) :
    Option ((ℤ × ℤ) × (ℤ × ℤ)) :=
  (resolveAsOf dates asOf).map splitBounds

/-- Window bounds the Pass-2 signal computations actually use:
`apply_all_signals` (lines 627-641) accepts an `as_of` argument but
`compute_topic_signals` (line 180), `compute_narrative_signals` (line 232)
and `compute_entity_signals` (line 358) each call `_window_splits(df)`
without forwarding it, so the anchor is always the maximum input date. -/
def pass2WindowsUsed (dates : List (Option ℤ)) (_asOfParam : Option ℤ) :
    Option ((ℤ × ℤ) × (ℤ × ℤ)) :=
  windowSplits dates none

/-! ## Topic Hot signal (orchestra_signals_engine.py, lines 179-225) -/

/-- Topic-level cells of one row as read by `compute_topic_signals`. The
field `oProm` is the row's topic prominence; the Pass-2 code never reads
it. -/
structure TopicRow where
  oProm : ℚ
  oSent : ℚ

/-- Embeds the article-level Hot mask of `compute_topic_signals`
(lines 181 and 206): line 181 binds BOTH column names, `topic_prom` and
`topic_sent`, to the sentiment column `"O_Sent"`, so the mask tests the
sentiment cell against 3.5 and against 3.0. -/
def computeTopicHot (r : TopicRow) : Bool :=
  if r.oSent ≥ 7/2 ∧ r.oSent ≥ 3 then true else false

/-- Transcribes the Hot rule as the specification words it (a second
definition for comparison with the source-derived `computeTopicHot`):
prominence at least 3.5 and sentiment at least 3.0. -/
def claimedTopicHot (r : TopicRow) : Bool :=
  if r.oProm ≥ 7/2 ∧ r.oSent ≥ 3 then true else false

/-! ## Entity signal ranking and attachment (orchestra_signals_engine.py,
lines 336-354 and 615-621) -/

/-- One candidate entity signal with its ranking tuple
`(severity, structural, outlet, prominence, recency)` as built throughout
`compute_entity_signals` from the `ENTITY_SIGNAL_WEIGHTS` table. -/
structure SigMeta where
  name : String
  sev : ℤ
  struc : ℤ
  outlet : ℤ
  prom : ℚ
  recency : ℤ
deriving DecidableEq

/-- Strict descending-priority comparison on the ranking tuple
(lexicographic on severity, structural weight, outlet, prominence,
recency). -/
def sigKeyGT (a b : SigMeta) : Bool :=
  if a.sev ≠ b.sev then decide (a.sev > b.sev)
  else if a.struc ≠ b.struc then decide (a.struc > b.struc)
  else if a.outlet ≠ b.outlet then decide (a.outlet > b.outlet)
  else if a.prom ≠ b.prom then decide (a.prom > b.prom)
  else decide (a.recency > b.recency)

/-- Stable insertion for the descending sort: a new element goes after
every earlier element whose key is not strictly below it. -/
def insertDescStable (x : SigMeta) : List SigMeta → List SigMeta
  | [] => [x]
  | y :: ys => if sigKeyGT x y then x :: y :: ys else y :: insertDescStable x ys

/-- Stable descending sort of the candidate list; equal keys keep their
insertion order, matching the stable mergesort used by
`_rank_and_cap_entity_signals` (`kind="mergesort"`, line 352). -/
def sortDescStable (l : List SigMeta) : List SigMeta :=
  l.foldl (fun acc x => insertDescStable x acc) []

/-- Embeds `_rank_and_cap_entity_signals` (lines 336-354): sort the
candidates descending on the ranking tuple with a stable sort and keep the
first `ENTITY_SIGNAL_CAP` = 3 names. -/
def rankAndCapEntitySignals (metas : List SigMeta) : List String :=
  ((sortDescStable metas).take 3).map (fun m => m.name)

/-- Embeds the per-cell attachment at lines 617-620 of
`compute_entity_signals`: the ranked names are unioned with whatever the
signal cell already holds via `list(set(cur_list + ranked))`. The Python
set fixes only the resulting element set, not its order; this embedding
canonicalizes the order, and every theorem about it concerns only the
element count. -/
def attachEntitySignals (curList : List String) (metas : List SigMeta) :
    List String :=
  (curList ++ rankAndCapEntitySignals metas).dedup

/-! ## Synthesized prominence columns (vertical_analysis.py, lines 982-1016) -/

/-- Embeds `estimate_prominence` (lines 993-1011): 0.0 when the entity is
not present, otherwise 4.0 / 3.0 / 2.0 / 1.0 by the magnitude of the
normalized sentiment. (The NaN branch of the source is unreachable: the
`*_Sentiment_Normalized` column is built through `coerce_float`, which
never yields NaN.) -/
def estimateProminence (present : Bool) (sentNormalized : ℚ) : ℚ :=
  if !present then 0
  else if |sentNormalized| ≥ 3 then 4
  else if |sentNormalized| ≥ 2 then 3
  else if |sentNormalized| ≥ 1 then 2
  else 1

/-- Embeds the `Entity_<name>_Prominence` column synthesis (lines 984-1016):
when a column of that literal name is absent, a new one is computed per row
by `estimate_prominence` from the presence flag (built from the bound
prominence cell, line 859) and the normalized sentiment (built from the
bound sentiment cell, line 860); when the literal column exists nothing is
added (`none` here). -/
def synthesizedProminenceColumn (hasLiteralCol : Bool)
    (promCell sentCell : Option ℚ) : Option ℚ :=
  if hasLiteralCol then none
  else
    some (estimateProminence (isPresent (coerceFloat promCell))
      (normalizeSentimentWeakCollapse (coerceFloat sentCell)))

/-- Transcribes the synthesis rule as the claim words it (a second
definition for comparison with the source-derived
`synthesizedProminenceColumn`): 0.0 when not present, else 4.0 / 3.0 /
2.0 / 1.0 as the magnitude of the normalized sentiment is ≥ 3, ≥ 2, ≥ 1,
or below 1. -/
def claimedSynthProminence (promCell sentCell : Option ℚ) : ℚ :=
  let s := |normalizeSentimentWeakCollapse (coerceFloat sentCell)|
  if 0 < coerceFloat promCell then
    (if 3 ≤ s then 4 else if 2 ≤ s then 3 else if 1 ≤ s then 2 else 1)
  else 0

/-! ## Auxiliary lemmas -/

/-- One missing-column segment is empty iff its guarding condition holds. -/
theorem guard_eq_nil {c : Prop} [Decidable c] {s : String} :
    ((if c then ([] : List String) else [s]) = []) ↔ c := by
  split <;> simp_all

/-- Missing-column contribution of one binding is empty iff both its
columns are available. -/
theorem bindingMissingCols_eq_nil (cols : List String) (m : ColumnBinding) :
    bindingMissingCols cols m = [] ↔
      cols.contains m.prominence = true ∧ cols.contains m.sentiment = true := by
  unfold bindingMissingCols
  rw [List.append_eq_nil, guard_eq_nil, guard_eq_nil]

/-! ## Claim theorems -/

/-- C1: the claim states that the article-level topic signal "Hot" is
attached iff the row's topic prominence is ≥ 3.5 and its topic sentiment is
≥ 3.0. In `compute_topic_signals` both mask columns are bound to the
sentiment column `"O_Sent"` (line 181), so at a row with topic prominence
4.0 and topic sentiment 3.0 the code attaches no "Hot" signal although the
stated rule attaches one. -/
theorem c1_topic_hot_reads_sentiment_for_prominence :
    computeTopicHot ⟨4, 3⟩ = false ∧ claimedTopicHot ⟨4, 3⟩ = true := by
  constructor
  · norm_num [computeTopicHot]
  · norm_num [claimedTopicHot]

/-- C2 counterexample: the claim states that every pre-existing non-empty
state value is preserved, for the topic as well as for entities. The
Topic_State column is recomputed unconditionally (line 832): a row with
pre-existing Topic_State "Healthy" and topic prominence 0 comes out as
"Absent". -/
theorem c2_topic_state_overwritten :
    topicStateOutput (some "Healthy") (some 0) (some 3) = "Absent" ∧
      "Absent" ≠ "Healthy" := by
  constructor
  · norm_num [topicStateOutput, topicStateRow, coerceFloat]
  · decide

/-- C2 (amended): only entity state cells are fill-only — a pre-existing
entity state that is non-empty, not the literal "nan", whitespace-trimmed
and not an "Offstage" spelling variant is returned unchanged by Pass 1;
topic and narrative state columns are always recomputed. -/
theorem c2_entity_state_preserved (pre computed : String)
    (h1 : pre ≠ "") (h2 : pre ≠ "nan") (h3 : trimStr pre = pre)
    (h4 : lowerStr pre ≠ "offstage") (h5 : lowerStr pre ≠ "off stage") :
    entityStateOutput (some pre) computed = pre := by
  simp only [entityStateOutput, entityStateFill]
  rw [if_neg (by simp [h1, h2])]
  simp only [normalizeState, h3]
  rw [if_neg (by simp [h4, h5])]

/-- C2 witness: a pre-existing entity state "Leader" survives Pass 1
unchanged. -/
theorem c2_entity_state_preserved_witness :
    entityStateOutput (some "Leader") "Absent" = "Leader" :=
  c2_entity_state_preserved "Leader" "Absent" (by decide) (by decide)
    (by decide) (by decide) (by decide)

/-- C3: `_window_splits` does compute the claimed inclusive windows
relative to its anchor — current `[a − 29, a]`, prior `[a − 59, a − 30]` —
but the Pass-2 signal computations never forward the `as_of` parameter of
`apply_all_signals`, so with input dates maxing at day 100 and `as_of` =
day 50 the windows actually used are anchored at 100, not at the windows
the claim requires for `as_of` = 50. -/
theorem c3_windows_anchor_ignores_as_of :
    (∀ (dates : List (Option ℤ)) (a : ℤ),
        windowSplits dates (some a) = some ((a - 29, a), (a - 59, a - 30))) ∧
    pass2WindowsUsed [some 100, some 40, none] (some 50)
      = some ((71, 100), (41, 70)) ∧
    pass2WindowsUsed [some 100, some 40, none] (some 50)
      ≠ some ((21, 50), (-9, 20)) := by
  refine ⟨fun dates a => ?_, by decide, by decide⟩
  show some (splitBounds a) = _
  unfold splitBounds
  norm_num
  omega

/-- C4 counterexample: the claim states that a header list containing
`Entity_X__State` (double underscore) but not `Entity_X_State` does not
bind the former as the state column. The double-underscore form is in the
explicit typo-variant list of `find_best_column_match` (line 77), so it
does bind. -/
theorem c4_double_underscore_state_binds :
    findBestColumnMatch (fun _ _ => none) "Entity_X_State" ["Entity_X__State"]
      = some "Entity_X__State" := by decide

/-- C4 (amended): fuzzy (≥ 0.8 similarity) matching is indeed never used
for `_State`/`_Modifier` targets — the resolver's result is independent of
the fuzzy matcher for them — but the exact typo-variant substitutions
(including the double-underscore form) still apply to those targets. -/
theorem c4_state_modifier_immune_to_fuzzy
    (f g : String → List String → Option String) (target : String)
    (available : List String)
    (h : endsWithStr target "_State" = true ∨ endsWithStr target "_Modifier" = true) :
    findBestColumnMatch f target available = findBestColumnMatch g target available := by
  have hb : (endsWithStr target "_State" || endsWithStr target "_Modifier") = true := by
    rcases h with h | h <;> simp [h]
  simp [findBestColumnMatch, hb]

/-- C4 witness: a `_Modifier` target resolves identically under an
aggressive fuzzy matcher (which would return the head of the header list)
and under no fuzzy matcher at all. -/
theorem c4_state_modifier_immune_to_fuzzy_witness :
    findBestColumnMatch (fun _ avail => avail.head?) "Entity_X_Modifier"
        ["Entity_Y_Modifier"]
      = findBestColumnMatch (fun _ _ => none) "Entity_X_Modifier"
        ["Entity_Y_Modifier"] :=
  c4_state_modifier_immune_to_fuzzy _ _ _ _ (Or.inr (by decide))

/-- C5 counterexample: the claim states every s with 0 < s ≤ 1 collapses
to +1, but the source collapses only 0.01 ≤ s ≤ 1; at s = 1/200 = 0.005
the value passes through unchanged. -/
theorem c5_small_positive_not_collapsed :
    (0 : ℚ) < 1/200 ∧ (1/200 : ℚ) ≤ 1 ∧
      normalizeSentimentWeakCollapse (1/200) = 1/200 ∧
      normalizeSentimentWeakCollapse (1/200) ≠ 1 := by
  refine ⟨by norm_num, by norm_num, ?_, ?_⟩ <;>
    norm_num [normalizeSentimentWeakCollapse]

/-- C5 (amended): the weak-collapse normalization returns +1 exactly on
[0.01, 1], −1 exactly on [−1, −0.01], 0 at 0, and the input unchanged in
every other case (in particular on (0, 0.01) and (−0.01, 0)). -/
theorem c5_weak_collapse_characterization (s : ℚ) :
    (normalizeSentimentWeakCollapse 0 = 0) ∧
    (1/100 ≤ s → s ≤ 1 → normalizeSentimentWeakCollapse s = 1) ∧
    (-1 ≤ s → s ≤ -(1/100) → normalizeSentimentWeakCollapse s = -1) ∧
    (s ≠ 0 → ¬(1/100 ≤ s ∧ s ≤ 1) → ¬(-1 ≤ s ∧ s ≤ -(1/100)) →
      normalizeSentimentWeakCollapse s = s) := by
  refine ⟨by norm_num [normalizeSentimentWeakCollapse], ?_, ?_, ?_⟩
  · intro h1 h2
    unfold normalizeSentimentWeakCollapse
    rw [if_neg (by intro h; rw [h] at h1; norm_num at h1), if_pos ⟨h1, h2⟩]
  · intro h1 h2
    unfold normalizeSentimentWeakCollapse
    rw [if_neg (by intro h; rw [h] at h2; norm_num at h2),
      if_neg (by rintro ⟨ha, -⟩; nlinarith), if_pos ⟨h1, h2⟩]
  · intro h0 hA hB
    unfold normalizeSentimentWeakCollapse
    rw [if_neg h0, if_neg hA, if_neg hB]

/-- C5 witness: 0.5 collapses to +1. -/
theorem c5_weak_collapse_characterization_witness :
    normalizeSentimentWeakCollapse (1/2) = 1 :=
  (c5_weak_collapse_characterization (1/2)).2.1 (by norm_num) (by norm_num)

/-- C6: the Under Fire cascade in source order gives (3, −2, 4) state
Under Fire with modifier Takedown and (2.5, −2.5, 4) state Under Fire with
modifier Stinger, and every point of the gap-bridge region
2 ≤ p < 3, s ≤ −2, t ≥ 4 receives Stinger. -/
theorem c6_under_fire_takedown_and_gap_bridge :
    (∀ (topicProm : ℚ) (narrProms : List ℚ),
        assignEntityState 3 (-2) topicProm narrProms = "Under Fire") ∧
    assignUnderFireModifier 3 (-2) 4 = "Takedown" ∧
    (∀ (topicProm : ℚ) (narrProms : List ℚ),
        assignEntityState (5/2) (-(5/2)) topicProm narrProms = "Under Fire") ∧
    assignUnderFireModifier (5/2) (-(5/2)) 4 = "Stinger" ∧
    (∀ p s t : ℚ, 2 ≤ p → p < 3 → s ≤ -2 → 4 ≤ t →
        assignUnderFireModifier p s t = "Stinger") := by
  refine ⟨fun tp narrs => ?_, by norm_num [assignUnderFireModifier],
    fun tp narrs => ?_, by norm_num [assignUnderFireModifier], ?_⟩
  · unfold assignEntityState
    rw [if_neg (by rintro ⟨-, h⟩; norm_num at h),
      if_pos ⟨by norm_num, by norm_num⟩]
  · unfold assignEntityState
    rw [if_neg (by rintro ⟨-, h⟩; norm_num at h),
      if_pos ⟨by norm_num, by norm_num⟩]
  · intro p s t h1 h2 h3 h4
    unfold assignUnderFireModifier
    rw [if_neg (by rintro ⟨ha, -⟩; linarith), if_neg (by rintro ⟨ha, -⟩; linarith),
      if_neg (by rintro ⟨ha, -⟩; linarith), if_neg (by rintro ⟨-, -, ha⟩; linarith),
      if_neg (by rintro ⟨-, ha, -⟩; linarith), if_neg (by rintro ⟨ha, -⟩; linarith),
      if_neg (by rintro ⟨ha, -⟩; linarith), if_pos ⟨h1, h2, h3, by linarith⟩]

/-- C6 witness: the gap-bridge point (2.5, −3, 5) receives Stinger. -/
theorem c6_under_fire_takedown_and_gap_bridge_witness :
    assignUnderFireModifier (5/2) (-3) 5 = "Stinger" :=
  c6_under_fire_takedown_and_gap_bridge.2.2.2.2 (5/2) (-3) 5 (by norm_num)
    (by norm_num) (by norm_num) (by norm_num)

/-- C7 counterexample: the claim states that Pass 1 aborts exactly on the
four listed binding failures. With topic prominence, topic sentiment,
outlet tier, `Pub_Tier` and one fully bound entity present but the
`Body - Length - Words` column absent, the claimed error condition is
false yet `process` raises the schema error. -/
theorem c7_abort_on_body_length_missing :
    pass1Aborts
        ["Topic_Prominence", "Topic_Sentiment", "Outlet score", "Pub_Tier",
         "Entity_A_Prominence", "Entity_A_Sentiment"]
        [] [⟨"Entity_A_Prominence", "Entity_A_Sentiment"⟩] = true ∧
    claimedSchemaError
        ["Topic_Prominence", "Topic_Sentiment", "Outlet score", "Pub_Tier",
         "Entity_A_Prominence", "Entity_A_Sentiment"]
        [] [⟨"Entity_A_Prominence", "Entity_A_Sentiment"⟩] = false := by
  constructor <;> decide

/-- C7 (amended): Pass 1 completes without a schema error exactly when the
topic prominence, topic sentiment and outlet-tier bindings resolve, every
column bound for a discovered narrative or entity exists, and the two
metadata columns `Pub_Tier` and `Body - Length - Words` exist;
equivalently it aborts exactly when one of those is missing. The absence
of any bound entity or narrative is not an abort condition, and the two
metadata columns are abort conditions beyond the claim's list. -/
theorem c7_abort_characterization (cols : List String)
    (narrativeMappings entityMappings : List ColumnBinding) :
    pass1Aborts cols narrativeMappings entityMappings = false ↔
      ((topicProminenceBinding cols).isSome = true ∧
       (topicSentimentBinding cols).isSome = true ∧
       (∀ m ∈ narrativeMappings,
          cols.contains m.prominence = true ∧ cols.contains m.sentiment = true) ∧
       (∀ m ∈ entityMappings,
          cols.contains m.prominence = true ∧ cols.contains m.sentiment = true) ∧
       (outletScoreBinding cols).isSome = true ∧
       cols.contains "Pub_Tier" = true ∧
       cols.contains "Body - Length - Words" = true) := by
  unfold pass1Aborts missingRequiredCols
  rw [Bool.not_eq_false', List.isEmpty_iff]
  simp only [List.append_eq_nil, guard_eq_nil, List.flatMap_eq_nil_iff,
    bindingMissingCols_eq_nil]
  tauto

/-- C7 witness: a header list with all required columns (including the two
metadata columns) and one bound entity passes the schema check. -/
theorem c7_abort_characterization_witness :
    pass1Aborts
        ["Topic_Prominence", "Topic_Sentiment", "Outlet score", "Pub_Tier",
         "Body - Length - Words", "Entity_A_Prominence", "Entity_A_Sentiment"]
        [] [⟨"Entity_A_Prominence", "Entity_A_Sentiment"⟩] = false :=
  (c7_abort_characterization _ _ _).mpr
    ⟨by decide, by decide, by decide, by decide, by decide, by decide, by decide⟩

/-- C8 counterexample: the claim bounds every emitted (entity, row) signal
list by 3, but the attachment step unions the ranked top-3 with any
pre-existing cell content. On a single-row input whose entity signal cell
already holds "Echo (tight)", with the entity at prominence 4 and
sentiment 2 on a tier-4 outlet, one modifier-free peer at prominence 1 and
sentiment 0, and a narrative present, the article-level pass collects
exactly Narrative Shaping (prominence ≥ 4 on outlet ≥ 4, line 427), Wedge
Potential (sentiment lead 2 ≥ 1.5 with a narrative on the row, line 432)
and Contrast Framing (|2 − 0| ≥ 2.0, line 455), in that insertion order
and with their ENTITY_SIGNAL_WEIGHTS severities (9,3), (5,2), (5,1); the
prior window is empty and the current window has one row, so no windowed
candidate fires. The emitted cell then holds 4 signals. -/
theorem c8_union_with_preexisting_exceeds_cap :
    3 < (attachEntitySignals ["Echo (tight)"]
      [⟨"Narrative Shaping", 9, 3, 4, 4, 0⟩,
       ⟨"Wedge Potential", 5, 2, 4, 4, 0⟩,
       ⟨"Contrast Framing", 5, 1, 4, 4, 0⟩]).length := by decide

/-- C8 (amended): at most 3 signals are emitted per (entity, row) whenever
the signal cell starts empty (fresh input without pre-existing signal
columns); pre-existing cell content is unioned in and can push the count
above 3. -/
theorem c8_fresh_cell_at_most_three (metas : List SigMeta) :
    (attachEntitySignals [] metas).length ≤ 3 := by
  simp only [attachEntitySignals, List.nil_append]
  calc (rankAndCapEntitySignals metas).dedup.length
      ≤ (rankAndCapEntitySignals metas).length :=
        (List.dedup_sublist _).length_le
    _ ≤ 3 := by
        simp only [rankAndCapEntitySignals, List.length_map, List.length_take]
        exact min_le_left _ _

/-- C9: Pass 2 emits each signal cell through `list(set(cur_list + ranked))`
(line 620), whose iteration order for strings is hash-randomized across
Python interpreter runs, so the claimed byte-identical determinism fails on
any cell holding at least two signals. This theorem evaluates the
attachment at the failing input — an entity present beside a peer carrying
a Takedown modifier collects both Ricochet Risk and Cautious
Schadenfreude, a 2-element cell — showing the nondeterministic code path
is reached. -/
theorem c9_two_signal_cell_reaches_set_union :
    attachEntitySignals []
        [⟨"Ricochet Risk", 5, 2, 3, 1, 0⟩,
         ⟨"Cautious Schadenfreude", 5, 2, 3, 1, 0⟩]
      = ["Ricochet Risk", "Cautious Schadenfreude"] := by decide

/-- C10: for an entity bound without a column literally named
`Entity_<name>_Prominence`, the synthesized per-row value equals the
claimed formula — 0.0 when not present, else 4.0 / 3.0 / 2.0 / 1.0 by the
magnitude of the normalized sentiment — and is not a copy of the bound
prominence cell (a bound prominence of 5 synthesizes to 2 at raw sentiment
0.5). -/
theorem c10_synthesized_prominence_matches_claim :
    (∀ promCell sentCell : Option ℚ,
        synthesizedProminenceColumn false promCell sentCell
          = some (claimedSynthProminence promCell sentCell)) ∧
    synthesizedProminenceColumn false (some 5) (some (1/2)) ≠ some 5 := by
  have key : ∀ promCell sentCell : Option ℚ,
      synthesizedProminenceColumn false promCell sentCell
        = some (claimedSynthProminence promCell sentCell) := by
    intro promCell sentCell
    by_cases h : 0 < coerceFloat promCell <;>
      simp [synthesizedProminenceColumn, claimedSynthProminence,
        estimateProminence, isPresent, h, ge_iff_le]
  refine ⟨key, ?_⟩
  rw [key]
  norm_num [claimedSynthProminence, coerceFloat, normalizeSentimentWeakCollapse]

end Orchestra
